import Mathlib

/-!
Verification of the Nicole admin dashboard (src/main.py).

Shallow embedding of the parts of the program the properties below talk
about: the contact data model, the statistics helper `get_stats`
(main.py lines 133-153), the Users-page filter block (lines 359-373),
the Analytics-page date-range mask (lines 466-469), and the Save/Delete
button handlers together with the session, cache and store state they
mutate (lines 419-438, 113-127).

Modelling conventions:
  * A pandas DataFrame built from a list of records has the record keys
    as columns when at least one record exists and no columns at all
    when the record list is empty (`pd.DataFrame([])`); a `Frame` below
    therefore carries its column list explicitly, and reading a column
    that is absent is the `KeyError` path, modelled with `Except`.
  * Python float arithmetic on the tiny dashboard ratios is modelled
    with the rationals.
  * Timestamps are natural numbers (seconds); truncating `created_at`
    to a calendar date (`pd.to_datetime(...).dt.date`) is division by
    86400.
  * `pd.Series.str.contains(q, case=False, na=False)` is modelled as a
    case-insensitive literal substring test (the program is analysed on
    queries without regex metacharacters); `na=False` sends a null field
    to `false`.  `astype(str)` renders a null as the literal string
    "None", exactly as pandas stringifies a `None` entry of an object
    column.
  * The external Supabase client either completes a call or raises; a
    `storeFails` flag on the state selects which behaviour the next
    store call exhibits.  Every store call, failed or not, is counted in
    `storeCalls`.  Streamlit session state (`confirm_delete_{id}` flags)
    is the `pending` list; the `st.cache_data` read cache is the
    `cacheValid` flag, cleared by `st.cache_data.clear()`.
-/

/-- One contact row as returned by the store (spec section 3).
`first_name`, `email`, `phone` may be null in the table. -/
structure Contact where
  id : Nat
  first_name : Option String := none
  email : Option String := none
  phone : Option String := none
  created_at : Nat := 0
  status : String := "lead_new"
  current_day : Int := 0
  consent_whatsapp : Option Bool := none
  consent_email : Option Bool := none
  deriving DecidableEq, Repr

/-- A DataFrame of contacts: the rows plus the columns present. -/
structure Frame where
  cols : List String
  rows : List Contact
  deriving DecidableEq, Repr

/-- Columns of the contacts table. -/
def CONTACT_COLS : List String :=
  ["id", "first_name", "email", "phone", "created_at", "status",
   "current_day", "consent_whatsapp", "consent_email"]

/-- `pd.DataFrame(records)` as built from the store response in
`get_all_contacts` (main.py line 117): all columns when the record list
is non-empty, no columns at all when it is empty. -/
def Frame.ofRecords (rows : List Contact) : Frame :=
  { cols := if rows.isEmpty then [] else CONTACT_COLS, rows := rows }

/-- The record returned by `get_stats` (main.py lines 146-153). -/
structure StatsR where
  total_users : Nat
  active_challenges : Nat
  completed_challenges : Nat
  paid_users : Nat
  revenue : ℚ
  conversion_rate : ℚ
  deriving DecidableEq, Repr

/-- `len(df[df['status'] == s])`: how many rows carry status `s`. -/
def countStatus (rows : List Contact) (s : String) : Nat :=
  (rows.filter (fun c => c.status = s)).length

/-- `get_stats(df)` (main.py lines 133-153).  Lines 136-137 read
`df['status']` with no guard, so a frame without that column raises
`KeyError`; line 138 guards the same read for `paid_users` (the guard
is redundant once lines 136-137 have succeeded, and is kept here).
Revenue is `paid_users * 9.99` (line 141); the conversion rate is
`paid / completed * 100` when `completed > 0`, else `0` (line 144). -/
def get_stats (df : Frame) : Except String StatsR :=
  let total_users := df.rows.length
  if df.cols.contains "status" then
    let active_challenges := countStatus df.rows "challenge_running"
    let completed_challenges := countStatus df.rows "challenge_completed"
    let paid_users :=
      if df.cols.contains "status" then countStatus df.rows "paid_member" else 0
    let revenue : ℚ := (paid_users : ℚ) * (999 / 100)
    let conversion_rate : ℚ :=
      if completed_challenges > 0 then
        (paid_users : ℚ) / (completed_challenges : ℚ) * 100
      else 0
    Except.ok
      { total_users := total_users
        active_challenges := active_challenges
        completed_challenges := completed_challenges
        paid_users := paid_users
        revenue := revenue
        conversion_rate := conversion_rate }
  else Except.error "KeyError: status"

/-- Literal substring test on character lists. -/
def strContains (hay needle : String) : Bool :=
  (List.range (hay.toList.length + 1)).any
    (fun i => needle.toList.isPrefixOf (hay.toList.drop i))

/-- Lower-case a string character by character (Python `str.lower` on
the ASCII range relevant here). -/
def toLowerStr (s : String) : String :=
  ⟨s.data.map Char.toLower⟩

/-- Case-insensitive substring test: `Series.str.contains(q, case=False)`
on a string entry, for a metacharacter-free query `q`. -/
def containsCI (hay q : String) : Bool :=
  strContains (toLowerStr hay) (toLowerStr q)

/-- `col.str.contains(search, case=False, na=False)` at one entry: a
null entry yields `False` (`na=False`), a string entry is searched
case-insensitively (main.py lines 369-370). -/
def fieldMatch (f : Option String) (q : String) : Bool :=
  match f with
  | none => false
  | some s => containsCI s q

/-- `astype(str)` at one entry of the phone column (main.py line 371):
a null entry becomes the literal string "None". -/
def phoneStr : Option String → String
  | none => "None"
  | some s => s

/-- The search mask of the Users page (main.py lines 368-372): first
name, email, or stringified phone contains the query. -/
def searchMask (c : Contact) (q : String) : Bool :=
  fieldMatch c.first_name q || fieldMatch c.email q ||
    containsCI (phoneStr c.phone) q

/-- One conditional filtering stage: `filtered_df = filtered_df[mask]`
executed only when the stage's condition is truthy. -/
def condFilter (b : Bool) (p : Contact → Bool) (l : List Contact) : List Contact :=
  if b then l.filter p else l

/-- The Users-page filter block (main.py lines 359-373): the status
stage runs when `status_filter` is a non-empty list and `df` has a
`status` column (a frame of records has its columns exactly when it is
non-empty), the day stage likewise, and the search stage runs when the
query string is non-empty.  An empty criterion therefore filters
nothing. -/
def applyFilters (df : List Contact) (statusFilter : List String)
    (dayFilter : List Int) (search : String) : List Contact :=
  condFilter (!search.isEmpty) (fun c => searchMask c search)
    (condFilter (!dayFilter.isEmpty && !df.isEmpty)
      (fun c => dayFilter.contains c.current_day)
      (condFilter (!statusFilter.isEmpty && !df.isEmpty)
        (fun c => statusFilter.contains c.status) df))

/-- `pd.to_datetime(created_at).dt.date`: truncate a timestamp to its
calendar date (main.py line 467). -/
def toDate (ts : Nat) : Nat := ts / 86400

/-- The Analytics-page date-range mask (main.py lines 468-469):
`(df['date'] >= start_date) & (df['date'] <= end_date)`, a closed
interval on the truncated dates. -/
def filterByDateRange (df : List Contact) (startDate endDate : Nat) : List Contact :=
  df.filter (fun c =>
    decide (startDate ≤ toDate c.created_at) &&
    decide (toDate c.created_at ≤ endDate))

/-- Process/session state threaded through the mutation handlers:
the store table, the number of store calls issued, the `st.cache_data`
validity, the set of ids whose `confirm_delete_{id}` session flag is
set, and whether the next store call fails. -/
structure Sys where
  table : List Contact
  storeCalls : Nat := 0
  cacheValid : Bool := true
  pending : List Nat := []
  storeFails : Bool := false
  deriving DecidableEq, Repr

/-- Outcome of a click on the Delete button. -/
inductive DeleteResult where
  | needsConfirmation
  | deleted
  deriving DecidableEq, Repr

/-- `update_contact(contact_id, updates)` (main.py lines 119-122): one
unconditional store call, updating the matching row's status and day on
success; no validation of any kind is performed before the call. -/
def update_contact (id : Nat) (newStatus : String) (newDay : Int) (s : Sys) :
    Sys × Except String Unit :=
  if s.storeFails then
    ({ s with storeCalls := s.storeCalls + 1 }, Except.error "StoreError")
  else
    ({ s with
        storeCalls := s.storeCalls + 1,
        table := s.table.map (fun c =>
          if c.id = id then { c with status := newStatus, current_day := newDay }
          else c) },
     Except.ok ())

/-- `delete_contact(contact_id)` (main.py lines 124-127): one
unconditional store call removing the matching row on success. -/
def delete_contact (id : Nat) (s : Sys) : Sys × Except String Unit :=
  if s.storeFails then
    ({ s with storeCalls := s.storeCalls + 1 }, Except.error "StoreError")
  else
    ({ s with
        storeCalls := s.storeCalls + 1,
        table := s.table.filter (fun c => c.id ≠ id) },
     Except.ok ())

/-- The Save button handler (main.py lines 419-427): call
`update_contact`; a raised store error propagates and skips the rest;
on success clear the read cache (`st.cache_data.clear()`). -/
def saveHandler (id : Nat) (newStatus : String) (newDay : Int) (s : Sys) :
    Sys × Except String Unit :=
  let r := update_contact id newStatus newDay s
  match r.2 with
  | Except.error e => (r.1, Except.error e)
  | Except.ok _ => ({ r.1 with cacheValid := false }, Except.ok ())

/-- The Delete button handler (main.py lines 430-438): if the session
flag `confirm_delete_{id}` is set, call `delete_contact` (a store error
propagates and skips the rest) and on success clear the read cache —
the flag itself is left as it is; otherwise set the flag and warn
("Click again to confirm"). -/
def deleteHandler (id : Nat) (s : Sys) : Sys × Except String DeleteResult :=
  if s.pending.contains id then
    let r := delete_contact id s
    match r.2 with
    | Except.error e => (r.1, Except.error e)
    | Except.ok _ => ({ r.1 with cacheValid := false }, Except.ok DeleteResult.deleted)
  else
    ({ s with pending := id :: s.pending }, Except.ok DeleteResult.needsConfirmation)

/-- The four status options offered by the Change Status selectbox
(main.py line 403). -/
def STATUS_OPTIONS : List String :=
  ["lead_new", "challenge_running", "challenge_completed", "paid_member"]

/-- `st.selectbox`: the widget can only return one of its options. -/
def selectbox (options : List String) (choice : Fin options.length) : String :=
  options.get choice

/-- `st.number_input(min_value, max_value, ...)`: the widget keeps the
returned value inside its bounds (main.py lines 409-415). -/
def number_input (lo hi v : Int) : Int := max lo (min hi v)

/-- The Save flow as wired in the UI: the status comes from the
selectbox over `STATUS_OPTIONS`, the day from a number input bounded to
`[0, 30]`, and both are passed to the Save handler. -/
def saveButtonFlow (id : Nat) (choice : Fin STATUS_OPTIONS.length) (d : Int)
    (s : Sys) : Sys × Except String Unit :=
  saveHandler id (selectbox STATUS_OPTIONS choice) (number_input 0 30 d) s

/-- Sample contact, id 7. -/
def c7 : Contact :=
  { id := 7, first_name := some "Ana", email := some "ana@example.com",
    phone := some "111", created_at := 86400, status := "lead_new",
    current_day := 0 }

/-- Sample contact, id 8. -/
def c8 : Contact :=
  { id := 8, first_name := some "Bea", email := some "bea@example.com",
    phone := some "222", created_at := 172800, status := "challenge_running",
    current_day := 8 }

/-- Fresh session over a two-row table, no pending flags, store healthy. -/
def s0 : Sys := { table := [c7, c8] }

/-- Session whose next store call fails. -/
def sFail : Sys :=
  { table := [c7], cacheValid := true, pending := [7], storeFails := true }

/-- A contact whose phone is null in the table. -/
def cNullPhone : Contact :=
  { id := 3, first_name := some "Alice", email := some "alice@example.com",
    phone := none, created_at := 0, status := "lead_new", current_day := 0 }

/-- Sample rows: one paid member and one completed challenge. -/
def rowsW : List Contact :=
  [{ id := 1, status := "paid_member", current_day := 10, created_at := 86400 },
   { id := 2, status := "challenge_completed", current_day := 30,
     created_at := 172800 }]

/-- The selectbox choice "paid_member". -/
def choiceW : Fin STATUS_OPTIONS.length := ⟨3, by decide⟩

/-- The statistics record `get_stats` produces on `rowsW`. -/
def statsW : StatsR :=
  { total_users := 2, active_challenges := 0, completed_challenges := 1,
    paid_users := 1, revenue := 999 / 100, conversion_rate := 100 }

/-- A contact with null first name, email, and phone. -/
def cAllNull : Contact := { id := 9 }

/-! Theorems. -/

/-- Helper: one conditional filtering stage returns a sublist of its
input. -/
theorem condFilter_sublist (b : Bool) (p : Contact → Bool) (l : List Contact) :
    List.Sublist (condFilter b p l) l := by
  cases b
  · simp [condFilter]
  · exact List.filter_sublist l

/-- C7: filtering with an empty status set, an empty day set, and an
empty query returns the collection unchanged, in order: every stage of
the Users-page filter block is skipped when its criterion is empty. -/
theorem filter_empty_criteria_identity (df : List Contact) :
    applyFilters df [] [] "" = df := rfl

/-- C10: for every collection and every combination of status set, day
set and query, the output of the Users-page filter block is a sublist
of the input — no contact is invented or duplicated and the input
order is preserved. -/
theorem filter_sublist_of_input (df : List Contact) (sf : List String)
    (dayf : List Int) (q : String) :
    List.Sublist (applyFilters df sf dayf q) df := by
  unfold applyFilters
  exact (condFilter_sublist _ _ _).trans
    ((condFilter_sublist _ _ _).trans (condFilter_sublist _ _ _))

/-- C9: the Analytics date-range mask returns the empty collection
(without error) when the start date exceeds the end date, and in
general keeps exactly the contacts whose `created_at` truncated to a
date lies in the closed interval. -/
theorem date_range_filter_spec (df : List Contact) (d1 d2 : Nat) :
    (d2 < d1 → filterByDateRange df d1 d2 = []) ∧
    (∀ c : Contact, c ∈ filterByDateRange df d1 d2 ↔
      c ∈ df ∧ d1 ≤ toDate c.created_at ∧ toDate c.created_at ≤ d2) := by
  constructor
  · intro h
    rw [filterByDateRange, List.filter_eq_nil_iff]
    intro c _
    simp only [Bool.and_eq_true, decide_eq_true_eq, not_and]
    intro h1 h2
    omega
  · intro c
    simp [filterByDateRange, List.mem_filter, and_assoc]

/-- C9 witness: on a concrete collection, an inverted range yields ∅. -/
theorem date_range_filter_spec_witness : filterByDateRange [c7, c8] 5 3 = [] :=
  (date_range_filter_spec [c7, c8] 5 3).1 (by decide)

/-- C4: `get_stats` applied to the empty collection — the frame
`pd.DataFrame([])`, which has no columns — raises a `KeyError` at the
unguarded `df['status']` of line 136 instead of returning zero counts;
line 138 guards the very same access, showing the intended handling. -/
theorem get_stats_empty_frame_raises :
    get_stats (Frame.ofRecords []) = Except.error "KeyError: status" := rfl

/-- C5: for every non-empty collection the conversion rate returned by
`get_stats` is `paid / completed * 100` when the completed count is
positive and exactly 0 otherwise; on the empty collection the completed
count is 0 yet `get_stats` raises rather than returning 0, through the
same missing-column access as C4. -/
theorem conversion_rate_spec :
    (∀ (rows : List Contact) (st : StatsR), rows ≠ [] →
      get_stats (Frame.ofRecords rows) = Except.ok st →
      st.conversion_rate =
        if countStatus rows "challenge_completed" > 0 then
          (countStatus rows "paid_member" : ℚ) /
            (countStatus rows "challenge_completed" : ℚ) * 100
        else 0) ∧
    (countStatus ([] : List Contact) "challenge_completed" = 0 ∧
      get_stats (Frame.ofRecords []) = Except.error "KeyError: status") := by
  refine ⟨?_, rfl, rfl⟩
  intro rows st hne hok
  cases rows with
  | nil => exact absurd rfl hne
  | cons r t =>
    simp +decide [get_stats, Frame.ofRecords, CONTACT_COLS] at hok
    rw [← hok]

/-- C5 witness: the conversion-rate formula evaluated on a concrete
two-row collection with one paid member and one completed challenge. -/
theorem conversion_rate_spec_witness :
    statsW.conversion_rate =
      if countStatus rowsW "challenge_completed" > 0 then
        (countStatus rowsW "paid_member" : ℚ) /
          (countStatus rowsW "challenge_completed" : ℚ) * 100
      else 0 :=
  conversion_rate_spec.1 rowsW statsW (by decide)
    (by simp +decide [get_stats, Frame.ofRecords, CONTACT_COLS, countStatus,
          rowsW, statsW, List.filter])

/-- C1 counterexample: `update_contact` called with the out-of-range
status "bogus_status" performs no validation — it issues the store call
(the call count moves from 0 to 1) and reports success, rather than
failing with a validation error before contacting the store. -/
theorem update_contact_no_validation_cex :
    (update_contact 1 "bogus_status" 5 s0).1.storeCalls = 1 ∧
    (update_contact 1 "bogus_status" 5 s0).2 = Except.ok () ∧
    s0.storeCalls = 0 :=
  ⟨rfl, rfl, rfl⟩

/-- C1 amended: no code path validates or raises; instead the Save flow
can only submit a status drawn from the selectbox's four options and a
day kept in [0, 30] by the number input, so the table's status/day
invariants are preserved by any Save click. -/
theorem save_flow_ui_bounds (s : Sys) (id : Nat)
    (choice : Fin STATUS_OPTIONS.length) (d : Int)
    (hinv : ∀ c ∈ s.table,
      c.status ∈ STATUS_OPTIONS ∧ 0 ≤ c.current_day ∧ c.current_day ≤ 30) :
    selectbox STATUS_OPTIONS choice ∈ STATUS_OPTIONS ∧
    0 ≤ number_input 0 30 d ∧ number_input 0 30 d ≤ 30 ∧
    ∀ c ∈ (saveButtonFlow id choice d s).1.table,
      c.status ∈ STATUS_OPTIONS ∧ 0 ≤ c.current_day ∧ c.current_day ≤ 30 := by
  have hsel : selectbox STATUS_OPTIONS choice ∈ STATUS_OPTIONS :=
    List.get_mem _ _ _
  have hlo : (0 : Int) ≤ number_input 0 30 d := le_max_left _ _
  have hhi : number_input 0 30 d ≤ 30 := max_le (by norm_num) (min_le_left _ _)
  refine ⟨hsel, hlo, hhi, ?_⟩
  intro c hc
  by_cases hf : s.storeFails = true
  · simp only [saveButtonFlow, saveHandler, update_contact, hf, if_true] at hc
    exact hinv c hc
  · simp only [saveButtonFlow, saveHandler, update_contact, hf, if_false,
      Bool.false_eq_true, List.mem_map] at hc
    obtain ⟨a, ha, hfa⟩ := hc
    by_cases hid : a.id = id
    · rw [if_pos hid] at hfa
      rw [← hfa]
      exact ⟨hsel, hlo, hhi⟩
    · rw [if_neg hid] at hfa
      rw [← hfa]
      exact hinv a ha

/-- C1 amended witness: a concrete Save click on the fresh session. -/
theorem save_flow_ui_bounds_witness :
    selectbox STATUS_OPTIONS choiceW ∈ STATUS_OPTIONS ∧
    0 ≤ number_input 0 30 99 ∧ number_input 0 30 99 ≤ 30 ∧
    ∀ c ∈ (saveButtonFlow 7 choiceW 99 s0).1.table,
      c.status ∈ STATUS_OPTIONS ∧ 0 ≤ c.current_day ∧ c.current_day ≤ 30 :=
  save_flow_ui_bounds s0 7 choiceW 99 (by decide)

/-- C2 counterexample: after requesting deletion of 7 and then of 8,
both per-id session flags are set at once (the pending state is not a
single id), and a third click for 7 deletes contact 7 instead of
returning a fresh needs-confirmation. -/
theorem delete_confirm_multi_pending_cex :
    (deleteHandler 8 (deleteHandler 7 s0).1).1.pending = [8, 7] ∧
    (deleteHandler 7 (deleteHandler 8 (deleteHandler 7 s0).1).1).2 =
      Except.ok DeleteResult.deleted ∧
    (deleteHandler 7 (deleteHandler 8 (deleteHandler 7 s0).1).1).1.table = [c8] :=
  ⟨rfl, rfl, rfl⟩

/-- C2 amended: the confirmation flags are independent per id — a
request for a second id does not confirm the first and deletes nothing,
and both ids stay pending afterwards, so a later repeat click on either
id deletes it. -/
theorem delete_confirm_per_id_flags (s : Sys) (a b : Nat) (hab : a ≠ b)
    (ha : a ∉ s.pending) (hb : b ∉ s.pending) :
    (deleteHandler a s).2 = Except.ok DeleteResult.needsConfirmation ∧
    (deleteHandler b (deleteHandler a s).1).2 =
      Except.ok DeleteResult.needsConfirmation ∧
    (deleteHandler b (deleteHandler a s).1).1.table = s.table ∧
    (deleteHandler b (deleteHandler a s).1).1.storeCalls = s.storeCalls ∧
    a ∈ (deleteHandler b (deleteHandler a s).1).1.pending ∧
    b ∈ (deleteHandler b (deleteHandler a s).1).1.pending := by
  have h1 : deleteHandler a s =
      ({ s with pending := a :: s.pending },
        Except.ok DeleteResult.needsConfirmation) := by
    simp [deleteHandler, ha]
  have hb1 : b ∉ a :: s.pending := by
    simp only [List.mem_cons, not_or]
    exact ⟨Ne.symm hab, hb⟩
  have h2 : deleteHandler b (deleteHandler a s).1 =
      ({ s with pending := b :: a :: s.pending },
        Except.ok DeleteResult.needsConfirmation) := by
    rw [h1]
    simp [deleteHandler, hb1]
  refine ⟨by rw [h1], by rw [h2], by rw [h2], by rw [h2], ?_, ?_⟩
  · rw [h2]
    simp [List.mem_cons]
  · rw [h2]
    simp [List.mem_cons]

/-- C2 amended witness: ids 7 and 8 on the fresh session. -/
theorem delete_confirm_per_id_flags_witness :
    (deleteHandler 7 s0).2 = Except.ok DeleteResult.needsConfirmation ∧
    (deleteHandler 8 (deleteHandler 7 s0).1).2 =
      Except.ok DeleteResult.needsConfirmation ∧
    (deleteHandler 8 (deleteHandler 7 s0).1).1.table = s0.table ∧
    (deleteHandler 8 (deleteHandler 7 s0).1).1.storeCalls = s0.storeCalls ∧
    7 ∈ (deleteHandler 8 (deleteHandler 7 s0).1).1.pending ∧
    8 ∈ (deleteHandler 8 (deleteHandler 7 s0).1).1.pending :=
  delete_confirm_per_id_flags s0 7 8 (by decide) (by decide) (by decide)

/-- C3 counterexample: after the second Delete click for id 7 the
contact is deleted, but the `confirm_delete_7` session flag is NOT
cleared — 7 is still marked pending afterwards, contradicting the
claim that the second request clears the pending intent. -/
theorem delete_flag_not_cleared_cex :
    (deleteHandler 7 (deleteHandler 7 s0).1).2 = Except.ok DeleteResult.deleted ∧
    7 ∈ (deleteHandler 7 (deleteHandler 7 s0).1).1.pending :=
  ⟨rfl, by decide⟩

/-- C3 amended: the first Delete click records intent and returns
needs-confirmation without any store call; the second click for the
same id performs the store delete and invalidates the read cache, but
leaves the per-id pending flag set. -/
theorem delete_two_step_behaviour (s : Sys) (id : Nat)
    (hp : id ∉ s.pending) (hf : s.storeFails = false) :
    (deleteHandler id s).2 = Except.ok DeleteResult.needsConfirmation ∧
    (deleteHandler id s).1.storeCalls = s.storeCalls ∧
    (deleteHandler id s).1.table = s.table ∧
    (deleteHandler id (deleteHandler id s).1).2 = Except.ok DeleteResult.deleted ∧
    (deleteHandler id (deleteHandler id s).1).1.table =
      s.table.filter (fun c => c.id ≠ id) ∧
    (deleteHandler id (deleteHandler id s).1).1.cacheValid = false ∧
    id ∈ (deleteHandler id (deleteHandler id s).1).1.pending ∧
    (deleteHandler id (deleteHandler id s).1).1.storeCalls = s.storeCalls + 1 := by
  have h1 : deleteHandler id s =
      ({ s with pending := id :: s.pending },
        Except.ok DeleteResult.needsConfirmation) := by
    simp [deleteHandler, hp]
  have h2 : deleteHandler id (deleteHandler id s).1 =
      ({ s with
          storeCalls := s.storeCalls + 1,
          cacheValid := false,
          table := s.table.filter (fun c => c.id ≠ id),
          pending := id :: s.pending },
        Except.ok DeleteResult.deleted) := by
    rw [h1]
    simp [deleteHandler, delete_contact, hf]
  refine ⟨by rw [h1], by rw [h1], by rw [h1], by rw [h2], by rw [h2],
    by rw [h2], ?_, by rw [h2]⟩
  rw [h2]
  simp [List.mem_cons]

/-- C3 amended witness: id 7 on the fresh session. -/
theorem delete_two_step_behaviour_witness :
    (deleteHandler 7 s0).2 = Except.ok DeleteResult.needsConfirmation ∧
    (deleteHandler 7 s0).1.storeCalls = s0.storeCalls ∧
    (deleteHandler 7 s0).1.table = s0.table ∧
    (deleteHandler 7 (deleteHandler 7 s0).1).2 = Except.ok DeleteResult.deleted ∧
    (deleteHandler 7 (deleteHandler 7 s0).1).1.table =
      s0.table.filter (fun c => c.id ≠ 7) ∧
    (deleteHandler 7 (deleteHandler 7 s0).1).1.cacheValid = false ∧
    7 ∈ (deleteHandler 7 (deleteHandler 7 s0).1).1.pending ∧
    (deleteHandler 7 (deleteHandler 7 s0).1).1.storeCalls = s0.storeCalls + 1 :=
  delete_two_step_behaviour s0 7 (by decide) rfl

/-- C6 counterexample: the contact with a null phone IS matched by the
query "one" — `astype(str)` turns the null phone into the string
"None", which contains "one" case-insensitively — even though "one" is
a substring of neither of its present fields ("Alice",
"alice@example.com").  A missing field is thus not always unmatched. -/
theorem search_null_phone_matches_cex :
    cNullPhone.phone = none ∧
    searchMask cNullPhone "one" = true ∧
    fieldMatch cNullPhone.first_name "one" = false ∧
    fieldMatch cNullPhone.email "one" = false := by
  decide

/-- C6 amended: a missing first name or email never matches any query
(`na=False`), and no error is raised on nulls; a missing phone however
is stringified to "None" by `astype(str)` and therefore matches
exactly the queries that are case-insensitive substrings of "None". -/
theorem search_null_fields_semantics (c : Contact) (q : String) :
    (c.first_name = none → fieldMatch c.first_name q = false) ∧
    (c.email = none → fieldMatch c.email q = false) ∧
    (c.phone = none →
      searchMask c q =
        (fieldMatch c.first_name q || fieldMatch c.email q ||
          containsCI "None" q)) := by
  refine ⟨?_, ?_, ?_⟩ <;> intro h <;> simp [fieldMatch, searchMask, phoneStr, h]

/-- C6 amended witness: the all-null contact and the query "one". -/
theorem search_null_fields_semantics_witness :
    fieldMatch cAllNull.first_name "one" = false ∧
    fieldMatch cAllNull.email "one" = false ∧
    searchMask cAllNull "one" =
      (fieldMatch cAllNull.first_name "one" || fieldMatch cAllNull.email "one" ||
        containsCI "None" "one") :=
  ⟨(search_null_fields_semantics cAllNull "one").1 rfl,
   (search_null_fields_semantics cAllNull "one").2.1 rfl,
   (search_null_fields_semantics cAllNull "one").2.2 rfl⟩

/-- C8: when the store call fails, the Save and Delete handlers
propagate the store error unchanged, leave the read cache validity and
the cached table exactly as they were, and in general either handler
invalidates the cache only when its store write has succeeded. -/
theorem mutation_failure_cache_safety (s : Sys) (id : Nat) (ns : String) (d : Int) :
    (s.storeFails = true →
      (saveHandler id ns d s).2 = Except.error "StoreError" ∧
      (saveHandler id ns d s).1.cacheValid = s.cacheValid ∧
      (saveHandler id ns d s).1.table = s.table ∧
      (id ∈ s.pending → (deleteHandler id s).2 = Except.error "StoreError") ∧
      (deleteHandler id s).1.cacheValid = s.cacheValid ∧
      (deleteHandler id s).1.table = s.table) ∧
    ((saveHandler id ns d s).1.cacheValid = false →
      s.cacheValid = false ∨ (saveHandler id ns d s).2 = Except.ok ()) ∧
    ((deleteHandler id s).1.cacheValid = false →
      s.cacheValid = false ∨ (deleteHandler id s).2 = Except.ok DeleteResult.deleted) := by
  refine ⟨?_, ?_, ?_⟩
  · intro hf
    have hs : saveHandler id ns d s =
        ({ s with storeCalls := s.storeCalls + 1 }, Except.error "StoreError") := by
      simp [saveHandler, update_contact, hf]
    refine ⟨by rw [hs], by rw [hs], by rw [hs], ?_, ?_, ?_⟩
    · intro hp
      simp [deleteHandler, delete_contact, hp, hf]
    · by_cases hp : id ∈ s.pending
      · simp [deleteHandler, delete_contact, hp, hf]
      · simp [deleteHandler, hp]
    · by_cases hp : id ∈ s.pending
      · simp [deleteHandler, delete_contact, hp, hf]
      · simp [deleteHandler, hp]
  · intro hcv
    by_cases hf : s.storeFails = true
    · left
      simpa [saveHandler, update_contact, hf] using hcv
    · right
      simp [saveHandler, update_contact, hf]
  · intro hcv
    by_cases hp : id ∈ s.pending
    · by_cases hf : s.storeFails = true
      · left
        simpa [deleteHandler, delete_contact, hp, hf] using hcv
      · right
        simp [deleteHandler, delete_contact, hp, hf]
    · left
      simpa [deleteHandler, hp] using hcv

/-- C8 witness: on a session whose store call fails, a Save and a
confirmed Delete for id 7 both surface the store error. -/
theorem mutation_failure_cache_safety_witness :
    (saveHandler 7 "paid_member" 3 sFail).2 = Except.error "StoreError" ∧
    (deleteHandler 7 sFail).2 = Except.error "StoreError" ∧
    (saveHandler 7 "paid_member" 3 sFail).1.cacheValid = sFail.cacheValid ∧
    (deleteHandler 7 sFail).1.table = sFail.table :=
  ⟨((mutation_failure_cache_safety sFail 7 "paid_member" 3).1 rfl).1,
   ((mutation_failure_cache_safety sFail 7 "paid_member" 3).1 rfl).2.2.2.1 (by decide),
   ((mutation_failure_cache_safety sFail 7 "paid_member" 3).1 rfl).2.1,
   ((mutation_failure_cache_safety sFail 7 "paid_member" 3).1 rfl).2.2.2.2.2⟩
